import Mathlib

/-!
Shallow embedding of `src/app.py` (mycloud GSTR-1 reconciliation).

Modelling conventions:
* Python floats are modelled as exact rationals (`ℚ`).  Binary floating-point
  representation error and the non-finite values `inf`/`nan` are outside the
  model; `pyFloatParse` below covers `float()` on finite decimal literals.
* Spreadsheet cells are `PyValue` (None / str / int / float).  A pandas
  `DataFrame` read with `header=None` is a rectangular grid whose width is the
  maximum row length, shorter rows padded with NA (modelled by `PyValue.none`).
* Fallible operations (`df.iloc` out of bounds, `float()` on a bad string)
  return `Except`/`Option`; a Python `try/except` becomes a match on the
  `Except` result.
-/

namespace App

/-- Python whitespace characters recognised by `str.strip` and `float()`
(ASCII subset). -/
def isPyWS (c : Char) : Bool :=
  c == ' ' || c == '\t' || c == '\n' || c == '\r' || c == '\x0b' || c == '\x0c'

/-- `str.strip()`: remove leading and trailing whitespace. -/
def pyStrip (s : String) : String :=
  String.mk (((s.data.dropWhile isPyWS).reverse.dropWhile isPyWS).reverse)

/-- `re.sub(r"[₹,]", "", value)` from `safe_number`: delete every rupee sign
and comma. -/
def stripCur (s : String) : String :=
  String.mk (s.data.filter (fun c => !(c == '₹' || c == ',')))

/-- Decimal digit test (`[0-9]`). -/
def isDig (c : Char) : Bool := c.isDigit

/-- Value of a list of decimal digits. -/
def digitsVal (ds : List Char) : Nat :=
  ds.foldl (fun n c => 10 * n + (c.toNat - 48)) 0

/-- Consume a Python digit group `digit (('_')? digit)*` (underscores allowed
only between digits, as in `float("1_000")`); returns the pure digits and the
rest of the input, or `none` when the input does not start with a digit. -/
def digitGroup : List Char → Option (List Char × List Char)
  | [] => none
  | c :: cs =>
    if isDig c then
      let rec go : List Char → List Char × List Char
        | [] => ([], [])
        | d :: ds =>
          if isDig d then
            let (tk, rs) := go ds
            (d :: tk, rs)
          else if d == '_' then
            match ds with
            | e :: es =>
              if isDig e then
                let (tk, rs) := go es
                (e :: tk, rs)
              else ([], d :: ds)
            | [] => ([], [d])
          else ([], d :: ds)
      let (tk, rs) := go cs
      some (c :: tk, rs)
    else none

/-- Mantissa of a Python float literal: `D [. [D]]` or `. D`; returns its
rational value and the remaining input. -/
def parseMantissa (cs : List Char) : Option (ℚ × List Char) :=
  match cs with
  | '.' :: rest =>
    match digitGroup rest with
    | some (frac, rs) => some ((digitsVal frac : ℚ) / (10 : ℚ) ^ frac.length, rs)
    | none => none
  | _ =>
    match digitGroup cs with
    | some (ip, rest) =>
      match rest with
      | '.' :: rest2 =>
        match digitGroup rest2 with
        | some (frac, rs) =>
          some ((digitsVal ip : ℚ) + (digitsVal frac : ℚ) / (10 : ℚ) ^ frac.length, rs)
        | none => some ((digitsVal ip : ℚ), rest2)
      | _ => some ((digitsVal ip : ℚ), rest)
    | none => none

/-- Optional exponent part `(e|E) [+|-] D`; fails unless the rest is empty
after it. -/
def parseExpAndEnd (m : ℚ) (cs : List Char) : Option ℚ :=
  match cs with
  | [] => some m
  | e :: rest =>
    if e == 'e' || e == 'E' then
      let (sg, rest2) : ℚ × List Char :=
        match rest with
        | '+' :: r => (1, r)
        | '-' :: r => (-1, r)
        | r => (1, r)
      match digitGroup rest2 with
      | some (ds, rs) =>
        if rs.isEmpty then some (m * (10 : ℚ) ^ (sg * (digitsVal ds : ℚ) : ℚ).num) else none
      | none => none
    else none

/-- Model of CPython `float(s)` on finite decimal literals: strip surrounding
whitespace, optional sign, mantissa, optional exponent.  Returns `none` where
`float()` raises `ValueError`.  Non-finite literals (`inf`, `infinity`,
`nan`) are outside the finite-rational model. -/
def pyFloatParse (s : String) : Option ℚ :=
  let cs := ((s.data.dropWhile isPyWS).reverse.dropWhile isPyWS).reverse
  let (sgn, cs) : ℚ × List Char :=
    match cs with
    | '+' :: r => (1, r)
    | '-' :: r => (-1, r)
    | r => (1, r)
  match parseMantissa cs with
  | some (m, rest) => (parseExpAndEnd m rest).map (fun v => sgn * v)
  | none => none

/-- A Python value as it can appear in a spreadsheet cell or be handed to
`safe_number`.  `none` stands for Python `None` and for a pandas NA cell
(both satisfy `pd.isna`). -/
inductive PyValue where
  | none
  | str (s : String)
  | int (n : Int)
  | float (q : ℚ)
deriving DecidableEq, Repr

/-- `pd.isna` on a scalar: true for `None`/NA.  (Float `nan` also satisfies
it in Python but is outside the finite model.) -/
def pyIsNA : PyValue → Bool
  | .none => true
  | _ => false

/-- Python `str()` of a value.  For a float the important downstream fact is
the repr round-trip `float(str(x)) == x`; the rendering chosen here returns a
plain decimal for integral values and is never fed back to `float()` in the
model (`safe_number` short-circuits the float case, see below). -/
def pyStr : PyValue → String
  | .none => "None"
  | .str s => s
  | .int n => toString n
  | .float q => if q.den = 1 then toString q.num ++ ".0" else toString q

/-- The body of `safe_number`'s `try` block (`src/app.py` lines 74-79):
NA check, `str`, strip `₹`/`,`, `float`.  An `Except.error` is the raised
`ValueError` the `except` clause catches.  For `int`/`float` inputs the
`float(re.sub(..., str(v)))` round-trip is the identity on the value
(`str` of a number contains no `₹`/`,` and `float(repr(x)) == x`), so those
branches return the value directly. -/
def safe_number_core : PyValue → Except String ℚ
  | .none => .ok 0
  | .int n => .ok (n : ℚ)
  | .float q => .ok q
  | .str s =>
    match pyFloatParse (stripCur s) with
    | some q => .ok q
    | Option.none => .error "ValueError"

/-- `safe_number` (`src/app.py` lines 73-81): the `try` body with every
exception collapsed to `0.0`. -/
def safe_number (v : PyValue) : ℚ :=
  match safe_number_core v with
  | .ok q => q
  | .error _ => 0

/-- A sheet read by `pd.read_excel(..., header=None)`: an untyped cell grid.
Width is the maximum row length; shorter rows are NA-padded. -/
structure DataFrame where
  data : List (List PyValue)
deriving DecidableEq, Repr

/-- Row count (`df.shape[0]`). -/
def DataFrame.nrows (df : DataFrame) : Nat := df.data.length

/-- Column count (`df.shape[1]`): maximum row length. -/
def DataFrame.ncols (df : DataFrame) : Nat :=
  df.data.foldr (fun r m => max r.length m) 0

/-- In-bounds cell access; NA padding for a short row. -/
def DataFrame.ilocD (df : DataFrame) (i j : Nat) : PyValue :=
  (df.data.getD i []).getD j PyValue.none

/-- `df.iloc[i, j]`: raises `IndexError` when the position is outside the
frame's shape. -/
def DataFrame.iloc (df : DataFrame) (i j : Nat) : Except String PyValue :=
  if i < df.nrows ∧ j < df.ncols then .ok (df.ilocD i j) else .error "IndexError"

/-- Substring containment (`needle in haystack` on Python strings). -/
def listContainsSub (needle hay : List Char) : Bool :=
  match hay with
  | [] => needle.isEmpty
  | _ :: tl => needle.isPrefixOf hay || listContainsSub needle tl

/-- `needle in hay` for strings. -/
def strContains (hay needle : String) : Bool := listContainsSub needle.data hay.data

/-- One inner-loop body of `extract_metadata` (`src/app.py` lines 94-101):
at cell `(i, j)`, test the three label sets on the lower-cased cell text and,
on a hit, overwrite the corresponding field with the stripped text of the
cell one column to the right (when that column exists). -/
def metaStep (df : DataFrame) (i : Nat) (acc : String × String × String) (j : Nat) :
    String × String × String :=
  let cell := (pyStr (df.ilocD i j)).toLower
  let hotel := acc.1
  let gstin := acc.2.1
  let period := acc.2.2
  let gstin := if strContains cell "gstin" ∧ j + 1 < df.ncols then
    pyStrip (pyStr (df.ilocD i (j + 1))) else gstin
  let hotel := if (strContains cell "legal name" ∨ strContains cell "trade name") ∧
      j + 1 < df.ncols then
    pyStrip (pyStr (df.ilocD i (j + 1))) else hotel
  let period := if strContains cell "return period" ∧ j + 1 < df.ncols then
    pyStrip (pyStr (df.ilocD i (j + 1))) else period
  (hotel, gstin, period)

/-- `extract_metadata` (`src/app.py` lines 86-103) applied to the first
sheet's grid: row-major scan of a `min 20 rows × min 10 cols` window,
returning `(hotel, gstin, period)`, each `"Unknown"` unless located. -/
def extract_metadata (df : DataFrame) : String × String × String :=
  (List.range (min 20 df.nrows)).foldl
    (fun acc i => (List.range (min 10 df.ncols)).foldl (metaStep df i) acc)
    ("Unknown", "Unknown", "Unknown")

/-- The fixed aggregate record both parsers fill (the `totals` dict literal,
`src/app.py` lines 112-122 and 151-161). -/
structure Totals where
  total_taxable_value : ℚ
  b2b_taxable_value : ℚ
  cgst_amount : ℚ
  sgst_amount : ℚ
  igst_amount : ℚ
  total_cess : ℚ
  total_invoice_value : ℚ
  exempted_non_gst : ℚ
  advances_adjusted : ℚ
deriving DecidableEq, Repr

/-- The zero-initialised record. -/
def initTotals : Totals :=
  { total_taxable_value := 0, b2b_taxable_value := 0, cgst_amount := 0,
    sgst_amount := 0, igst_amount := 0, total_cess := 0,
    total_invoice_value := 0, exempted_non_gst := 0, advances_adjusted := 0 }

/-- The totals dict as the engine sees it: key/value pairs in dict-literal
order, so `d.get(key, 0)` is association-list lookup with default `0`. -/
def Totals.toDict (t : Totals) : List (String × ℚ) :=
  [("total_taxable_value", t.total_taxable_value),
   ("b2b_taxable_value", t.b2b_taxable_value),
   ("cgst_amount", t.cgst_amount),
   ("sgst_amount", t.sgst_amount),
   ("igst_amount", t.igst_amount),
   ("total_cess", t.total_cess),
   ("total_invoice_value", t.total_invoice_value),
   ("exempted_non_gst", t.exempted_non_gst),
   ("advances_adjusted", t.advances_adjusted)]

/-- An Excel workbook: named sheets (`pd.ExcelFile`). -/
structure Workbook where
  sheets : List (String × DataFrame)
deriving DecidableEq, Repr

/-- `xls.sheet_names`. -/
def Workbook.sheetNames (wb : Workbook) : List String := wb.sheets.map Prod.fst

/-- `pd.read_excel(xls, name, header=None)` for a present sheet. -/
def Workbook.findSheet (wb : Workbook) (name : String) : Option DataFrame :=
  wb.sheets.lookup name

/-- `safe_number(df.iloc[i, j])`: the cell read may raise `IndexError`. -/
def readCell (df : DataFrame) (i j : Nat) : Except String ℚ :=
  match df.iloc i j with
  | .ok v => .ok (safe_number v)
  | .error e => .error e

/-- The `if "hsn" in xls.sheet_names:` block (`src/app.py` lines 124-131),
as a transformation of the running totals. -/
def hsnBlock (wb : Workbook) (t : Totals) : Except String Totals :=
  match wb.findSheet "hsn" with
  | some df =>
    match readCell df 1 3, readCell df 1 4, readCell df 1 6, readCell df 1 7,
        readCell df 1 8, readCell df 1 9 with
    | .ok tiv, .ok ttv, .ok ig, .ok cg, .ok sg, .ok cess =>
      .ok { t with
        total_invoice_value := tiv
        total_taxable_value := ttv
        igst_amount := ig
        cgst_amount := cg
        sgst_amount := sg
        total_cess := cess }
    | .error e, _, _, _, _, _ => .error e
    | _, .error e, _, _, _, _ => .error e
    | _, _, .error e, _, _, _ => .error e
    | _, _, _, .error e, _, _ => .error e
    | _, _, _, _, .error e, _ => .error e
    | _, _, _, _, _, .error e => .error e
  | Option.none => .ok t

/-- The `if "b2b" in xls.sheet_names:` block (`src/app.py` lines 133-135). -/
def b2bBlock (wb : Workbook) (t : Totals) : Except String Totals :=
  match wb.findSheet "b2b" with
  | some df =>
    match readCell df 1 11 with
    | .ok v => .ok { t with b2b_taxable_value := v }
    | .error e => .error e
  | Option.none => .ok t

/-- The `if "exemp" in xls.sheet_names:` block (`src/app.py` lines 137-139). -/
def exempBlock (wb : Workbook) (t : Totals) : Except String Totals :=
  match wb.findSheet "exemp" with
  | some df =>
    match readCell df 1 3 with
    | .ok v => .ok { t with exempted_non_gst := v }
    | .error e => .error e
  | Option.none => .ok t

/-- The `if "atadj" in xls.sheet_names:` block (`src/app.py` lines 141-143). -/
def atadjBlock (wb : Workbook) (t : Totals) : Except String Totals :=
  match wb.findSheet "atadj" with
  | some df =>
    match readCell df 1 3 with
    | .ok v => .ok { t with advances_adjusted := v }
    | .error e => .error e
  | Option.none => .ok t

/-- `parse_gstr1_excel` (`src/app.py` lines 108-145): zero-initialised
totals, overwritten per present named sheet from fixed cell coordinates by
the four sequential sheet blocks.  An absent sheet is skipped; a present
sheet with an out-of-shape coordinate raises `IndexError` (uncaught in the
source). -/
def parse_gstr1_excel (wb : Workbook) : Except String Totals :=
  match hsnBlock wb initTotals with
  | .error e => .error e
  | .ok t1 =>
    match b2bBlock wb t1 with
    | .error e => .error e
    | .ok t2 =>
      match exempBlock wb t2 with
      | .error e => .error e
      | .ok t3 => atadjBlock wb t3

/-- `[\d,\.]+` character class. -/
def isNumClassChar (c : Char) : Bool := c.isDigit || c == ',' || c == '.'

/-- Try to match `label\s*([\d,\.]+)` at the head of `cs` (both already
lower-cased for `re.I`); on success return the captured group. -/
def tryMatchHere (lab cs : List Char) : Option (List Char) :=
  if lab.isPrefixOf cs then
    let rest := (cs.drop lab.length).dropWhile isPyWS
    let run := rest.takeWhile isNumClassChar
    if run.isEmpty then none else some run
  else none

/-- Leftmost match of `re.search(label + r"\s*([\d,\.]+)", text, re.I)`:
scan positions left to right, return the first successful capture. -/
def reSearchNum (lab : List Char) : List Char → Option (List Char)
  | [] => Option.none
  | c :: cs =>
    match tryMatchHere lab (c :: cs) with
    | some run => some run
    | Option.none => reSearchNum lab cs

/-- One field's contribution from one page
(`safe_number(m.group(1) if m else 0)`). -/
def pageFieldNum (lab : String) (text : String) : ℚ :=
  match reSearchNum lab.data text.toLower.data with
  | some run => safe_number (.str (String.mk run))
  | Option.none => safe_number (.int 0)

/-- Per-page accumulation of `parse_gst_pdf`'s loop body
(`src/app.py` lines 166-197). -/
def pdfPageStep (t : Totals) (page : String) : Totals :=
  { t with
    total_taxable_value := t.total_taxable_value + pageFieldNum "taxable value" page,
    cgst_amount := t.cgst_amount + pageFieldNum "cgst" page,
    sgst_amount := t.sgst_amount + pageFieldNum "sgst" page,
    igst_amount := t.igst_amount + pageFieldNum "igst" page,
    total_cess := t.total_cess + pageFieldNum "cess" page }

/-- `parse_gst_pdf` (`src/app.py` lines 150-212).  A page is its extracted
text (`page.extract_text() or ""` makes a failed extraction the empty
string, so pages are just strings here); progress-bar calls are UI only.
After the page loop, B2B taxable value is set to the accumulated total and
total invoice value is derived as the component sum. -/
def parse_gst_pdf (pages : List String) : Totals :=
  let t := pages.foldl pdfPageStep initTotals
  { t with
    b2b_taxable_value := t.total_taxable_value,
    total_invoice_value := t.total_taxable_value + t.cgst_amount +
      t.sgst_amount + t.igst_amount + t.total_cess }

/-- A `reconciliation_components` entry.  The engine loop reads `key`,
`label` and `logic` only.  Modelled from the spec: the configuration file
`gst_reconciliation_config.json` is not in the sources; per the spec a rule
also carries a match policy (`exact` / `tolerant`), which the table loop in
`src/app.py` never consults. -/
structure Component where
  key : String
  label : String
  logic : String
  matchPolicy : String
deriving DecidableEq, Repr

/-- `d.get(key, default)` on the totals dict. -/
def dictGet (d : List (String × ℚ)) (k : String) (dflt : ℚ) : ℚ :=
  match d.lookup k with
  | some v => v
  | Option.none => dflt

/-- Round half to even (Python `round`'s tie-breaking) of a rational to an
integer. -/
def rhe (q : ℚ) : ℤ :=
  let f := ⌊q⌋
  let r := q - f
  if r < 1 / 2 then f
  else if 1 / 2 < r then f + 1
  else if f % 2 = 0 then f else f + 1

/-- `round(x, 2)`. -/
def round2 (q : ℚ) : ℚ := (rhe (100 * q) : ℚ) / 100

/-- One output row (`rows.append([...])`, `src/app.py` lines 263-270). -/
structure Row where
  label : String
  excelValue : ℚ
  pdfValue : ℚ
  logic : String
  status : String
  discrepancy : ℚ
deriving DecidableEq, Repr

/-- One iteration of the table-build loop (`src/app.py` lines 256-270):
look both values up by the rule's key (default `0`), compute the rounded
absolute discrepancy, classify `Matched`/`Difference`. -/
def buildRow (ex pdfT : List (String × ℚ)) (comp : Component) : Row :=
  let excelValue := dictGet ex comp.key 0
  let pdfValue := dictGet pdfT comp.key 0
  let discrepancy := round2 |excelValue - pdfValue|
  { label := comp.label, excelValue := excelValue, pdfValue := pdfValue,
    logic := comp.logic,
    status := if discrepancy = 0 then "Matched" else "Difference",
    discrepancy := discrepancy }

/-- The full table-build loop: one appended row per configured component,
in configuration order. -/
def buildTable (ex pdfT : List (String × ℚ)) (comps : List Component) : List Row :=
  comps.map (buildRow ex pdfT)

/-! ### Concrete fixtures used by the theorems below -/

/-- Header grid with the label `GSTIN` at `(3, 2)` and the value
`"27ABCDE1234F1Z5"` (with surrounding whitespace) at `(3, 3)`. -/
def gGstin : DataFrame := ⟨[
  [.str "", .str "", .str "", .str ""],
  [.str "", .str "", .str "", .str ""],
  [.str "", .str "", .str "", .str ""],
  [.str "", .str "", .str "GSTIN", .str " 27ABCDE1234F1Z5 "]]⟩

/-- Header grid in which a GSTIN label occurs twice; the later (row 1) value
`"B"` must win. -/
def gRepeat : DataFrame := ⟨[
  [.str "GSTIN", .str "A"],
  [.str "gstin of supplier", .str "B"]]⟩

/-- Header grid with no label anywhere in the scan window. -/
def gPlain : DataFrame := ⟨[[.str "hello", .int 5], [.none, .str "world"]]⟩

/-- `hsn` sheet whose data row holds `"1.005"` in column 4 (total taxable
value): a value that is not expressible with 2 decimal places. -/
def dfHsn : DataFrame := ⟨[
  List.replicate 10 (.str "h"),
  [.str "x", .str "x", .str "x", .str "100.5", .str "1.005", .str "x",
   .str "1", .str "2", .str "3", .str "4"]]⟩

/-- Workbook containing only the `hsn` sheet above. -/
def wbC4 : Workbook := ⟨[("hsn", dfHsn)]⟩

/-- The record `parse_gstr1_excel` produces for `wbC4`. -/
def tC4 : Totals :=
  { total_taxable_value := 201 / 200, b2b_taxable_value := 0, cgst_amount := 2,
    sgst_amount := 3, igst_amount := 1, total_cess := 4,
    total_invoice_value := 201 / 2, exempted_non_gst := 0, advances_adjusted := 0 }

/-- Workbook whose `hsn` sheet exists but has a single row (row index 1 is
out of bounds). -/
def wbHsnShort : Workbook := ⟨[("hsn", ⟨[List.replicate 10 (.str "h")]⟩)]⟩

/-- Workbook whose `b2b` sheet has two rows but only 11 columns, so the
fixed read of column 11 is out of bounds. -/
def wbB2bNarrow : Workbook :=
  ⟨[("b2b", ⟨[List.replicate 11 (.str "h"), List.replicate 11 (.str "0")]⟩)]⟩

/-- Workbook with no sheets at all. -/
def wbNoSheets : Workbook := ⟨[]⟩

/-- A document page carrying the five extracted labels but (like every page
of the export) no exempted/non-GST or advances anchor. -/
def pageC1 : String :=
  "GST Export Taxable Value 1,000.50 CGST 90.05 SGST 90.05 IGST 0 Cess 10"

/-- A rule referencing the field the document extractor never computes. -/
def compExempt : Component :=
  ⟨"exempted_non_gst", "Exempted / Non-GST", "Exempt outward supplies", "exact"⟩

/-- An `exact`-policy rule on the total taxable value. -/
def compExact : Component :=
  ⟨"total_taxable_value", "Total Taxable Value", "HSN summary total", "exact"⟩

/-- A record assigning `35842919.18` to the total taxable value. -/
def exW : List (String × ℚ) := [("total_taxable_value", 35842919.18)]

/-- A rule whose key appears in neither record. -/
def compM : Component := ⟨"no_such_key", "Mystery", "unknown field", "exact"⟩

/-! ### Helper lemmas -/

/-- A fold whose step fixes every state is the identity. -/
theorem foldl_fixed {α β : Type} (f : β → α → β) (l : List α) (b : β)
    (h : ∀ b' a, a ∈ l → f b' a = b') : l.foldl f b = b := by
  induction l generalizing b with
  | nil => rfl
  | cons x xs ih =>
    rw [List.foldl_cons, h b x (List.mem_cons_self x xs)]
    exact ih b (fun b' a ha => h b' a (List.mem_cons_of_mem x ha))

/-- A successful cell read returns the normalised in-bounds cell value. -/
theorem readCell_ok {df : DataFrame} {i j : Nat} {q : ℚ}
    (h : readCell df i j = .ok q) : q = safe_number (df.ilocD i j) := by
  unfold readCell DataFrame.iloc at h
  by_cases hb : i < df.nrows ∧ j < df.ncols
  · simp [hb] at h
    exact h.symm
  · simp [hb] at h

/-- Full characterisation of the `b2b` block: every other field is
preserved, and the B2B taxable value is overwritten with the normalised
cell `(1, 11)` exactly when the sheet is present. -/
theorem b2bBlock_spec {wb : Workbook} {t t' : Totals}
    (h : b2bBlock wb t = .ok t') :
    t'.total_taxable_value = t.total_taxable_value ∧
    t'.cgst_amount = t.cgst_amount ∧
    t'.sgst_amount = t.sgst_amount ∧
    t'.igst_amount = t.igst_amount ∧
    t'.total_cess = t.total_cess ∧
    t'.total_invoice_value = t.total_invoice_value ∧
    t'.exempted_non_gst = t.exempted_non_gst ∧
    t'.advances_adjusted = t.advances_adjusted ∧
    (∀ df, wb.findSheet "b2b" = some df →
      t'.b2b_taxable_value = safe_number (df.ilocD 1 11)) ∧
    (wb.findSheet "b2b" = Option.none →
      t'.b2b_taxable_value = t.b2b_taxable_value) := by
  unfold b2bBlock at h
  cases hf : wb.findSheet "b2b" with
  | none =>
    simp only [hf] at h
    cases h
    refine ⟨rfl, rfl, rfl, rfl, rfl, rfl, rfl, rfl, ?_, fun _ => rfl⟩
    intro df hdf
    exact Option.noConfusion hdf
  | some df =>
    simp only [hf] at h
    cases hr : readCell df 1 11 with
    | error e => simp only [hr] at h; exact Except.noConfusion h
    | ok v =>
      simp only [hr] at h
      cases h
      refine ⟨rfl, rfl, rfl, rfl, rfl, rfl, rfl, rfl, ?_, ?_⟩
      · intro df' hdf'
        injection hdf' with he
        subst he
        exact readCell_ok hr
      · intro hnone
        exact Option.noConfusion hnone

/-- Full characterisation of the `exemp` block: every other field is
preserved, and the exempted/non-GST value is overwritten with the
normalised cell `(1, 3)` exactly when the sheet is present. -/
theorem exempBlock_spec {wb : Workbook} {t t' : Totals}
    (h : exempBlock wb t = .ok t') :
    t'.total_taxable_value = t.total_taxable_value ∧
    t'.cgst_amount = t.cgst_amount ∧
    t'.sgst_amount = t.sgst_amount ∧
    t'.igst_amount = t.igst_amount ∧
    t'.total_cess = t.total_cess ∧
    t'.total_invoice_value = t.total_invoice_value ∧
    t'.b2b_taxable_value = t.b2b_taxable_value ∧
    t'.advances_adjusted = t.advances_adjusted ∧
    (∀ df, wb.findSheet "exemp" = some df →
      t'.exempted_non_gst = safe_number (df.ilocD 1 3)) ∧
    (wb.findSheet "exemp" = Option.none →
      t'.exempted_non_gst = t.exempted_non_gst) := by
  unfold exempBlock at h
  cases hf : wb.findSheet "exemp" with
  | none =>
    simp only [hf] at h
    cases h
    refine ⟨rfl, rfl, rfl, rfl, rfl, rfl, rfl, rfl, ?_, fun _ => rfl⟩
    intro df hdf
    exact Option.noConfusion hdf
  | some df =>
    simp only [hf] at h
    cases hr : readCell df 1 3 with
    | error e => simp only [hr] at h; exact Except.noConfusion h
    | ok v =>
      simp only [hr] at h
      cases h
      refine ⟨rfl, rfl, rfl, rfl, rfl, rfl, rfl, rfl, ?_, ?_⟩
      · intro df' hdf'
        injection hdf' with he
        subst he
        exact readCell_ok hr
      · intro hnone
        exact Option.noConfusion hnone

/-- Full characterisation of the `atadj` block: every other field is
preserved, and the advances-adjusted value is overwritten with the
normalised cell `(1, 3)` exactly when the sheet is present. -/
theorem atadjBlock_spec {wb : Workbook} {t t' : Totals}
    (h : atadjBlock wb t = .ok t') :
    t'.total_taxable_value = t.total_taxable_value ∧
    t'.cgst_amount = t.cgst_amount ∧
    t'.sgst_amount = t.sgst_amount ∧
    t'.igst_amount = t.igst_amount ∧
    t'.total_cess = t.total_cess ∧
    t'.total_invoice_value = t.total_invoice_value ∧
    t'.b2b_taxable_value = t.b2b_taxable_value ∧
    t'.exempted_non_gst = t.exempted_non_gst ∧
    (∀ df, wb.findSheet "atadj" = some df →
      t'.advances_adjusted = safe_number (df.ilocD 1 3)) ∧
    (wb.findSheet "atadj" = Option.none →
      t'.advances_adjusted = t.advances_adjusted) := by
  unfold atadjBlock at h
  cases hf : wb.findSheet "atadj" with
  | none =>
    simp only [hf] at h
    cases h
    refine ⟨rfl, rfl, rfl, rfl, rfl, rfl, rfl, rfl, ?_, fun _ => rfl⟩
    intro df hdf
    exact Option.noConfusion hdf
  | some df =>
    simp only [hf] at h
    cases hr : readCell df 1 3 with
    | error e => simp only [hr] at h; exact Except.noConfusion h
    | ok v =>
      simp only [hr] at h
      cases h
      refine ⟨rfl, rfl, rfl, rfl, rfl, rfl, rfl, rfl, ?_, ?_⟩
      · intro df' hdf'
        injection hdf' with he
        subst he
        exact readCell_ok hr
      · intro hnone
        exact Option.noConfusion hnone

/-- Full characterisation of the `hsn` block: B2B, exempted and advances are
preserved, and the six hsn-driven fields are overwritten with the normalised
cells `(1, 3)`/`(1, 4)`/`(1, 6)`/`(1, 7)`/`(1, 8)`/`(1, 9)` exactly when the
sheet is present. -/
theorem hsnBlock_spec {wb : Workbook} {t t' : Totals}
    (h : hsnBlock wb t = .ok t') :
    t'.b2b_taxable_value = t.b2b_taxable_value ∧
    t'.exempted_non_gst = t.exempted_non_gst ∧
    t'.advances_adjusted = t.advances_adjusted ∧
    (∀ df, wb.findSheet "hsn" = some df →
      t'.total_invoice_value = safe_number (df.ilocD 1 3) ∧
      t'.total_taxable_value = safe_number (df.ilocD 1 4) ∧
      t'.igst_amount = safe_number (df.ilocD 1 6) ∧
      t'.cgst_amount = safe_number (df.ilocD 1 7) ∧
      t'.sgst_amount = safe_number (df.ilocD 1 8) ∧
      t'.total_cess = safe_number (df.ilocD 1 9)) ∧
    (wb.findSheet "hsn" = Option.none →
      t'.total_invoice_value = t.total_invoice_value ∧
      t'.total_taxable_value = t.total_taxable_value ∧
      t'.igst_amount = t.igst_amount ∧
      t'.cgst_amount = t.cgst_amount ∧
      t'.sgst_amount = t.sgst_amount ∧
      t'.total_cess = t.total_cess) := by
  unfold hsnBlock at h
  cases hf : wb.findSheet "hsn" with
  | none =>
    simp only [hf] at h
    cases h
    refine ⟨rfl, rfl, rfl, ?_, fun _ => ⟨rfl, rfl, rfl, rfl, rfl, rfl⟩⟩
    intro df hdf
    exact Option.noConfusion hdf
  | some df =>
    simp only [hf] at h
    cases h3 : readCell df 1 3 with
    | error e => simp only [h3] at h; exact Except.noConfusion h
    | ok tiv =>
      cases h4 : readCell df 1 4 with
      | error e => simp only [h3, h4] at h; exact Except.noConfusion h
      | ok ttv =>
        cases h6 : readCell df 1 6 with
        | error e => simp only [h3, h4, h6] at h; exact Except.noConfusion h
        | ok ig =>
          cases h7 : readCell df 1 7 with
          | error e => simp only [h3, h4, h6, h7] at h; exact Except.noConfusion h
          | ok cg =>
            cases h8 : readCell df 1 8 with
            | error e => simp only [h3, h4, h6, h7, h8] at h; exact Except.noConfusion h
            | ok sg =>
              cases h9 : readCell df 1 9 with
              | error e =>
                simp only [h3, h4, h6, h7, h8, h9] at h
                exact Except.noConfusion h
              | ok cess =>
                simp only [h3, h4, h6, h7, h8, h9] at h
                cases h
                refine ⟨rfl, rfl, rfl, ?_, ?_⟩
                · intro df' hdf'
                  injection hdf' with he
                  subst he
                  exact ⟨readCell_ok h3, readCell_ok h4, readCell_ok h6,
                    readCell_ok h7, readCell_ok h8, readCell_ok h9⟩
                · intro hnone
                  exact Option.noConfusion hnone

/-- The page fold accumulates the per-page taxable-value contributions by
summation. -/
theorem pdfFold_ttv (pages : List String) (t : Totals) :
    (pages.foldl pdfPageStep t).total_taxable_value =
      t.total_taxable_value + (pages.map (pageFieldNum "taxable value")).sum := by
  induction pages generalizing t with
  | nil => simp
  | cons p ps ih =>
    rw [List.foldl_cons, ih]
    simp [pdfPageStep]
    ring

/-- The page fold accumulates the per-page CGST contributions by summation. -/
theorem pdfFold_cgst (pages : List String) (t : Totals) :
    (pages.foldl pdfPageStep t).cgst_amount =
      t.cgst_amount + (pages.map (pageFieldNum "cgst")).sum := by
  induction pages generalizing t with
  | nil => simp
  | cons p ps ih =>
    rw [List.foldl_cons, ih]
    simp [pdfPageStep]
    ring

/-- The page fold accumulates the per-page SGST contributions by summation. -/
theorem pdfFold_sgst (pages : List String) (t : Totals) :
    (pages.foldl pdfPageStep t).sgst_amount =
      t.sgst_amount + (pages.map (pageFieldNum "sgst")).sum := by
  induction pages generalizing t with
  | nil => simp
  | cons p ps ih =>
    rw [List.foldl_cons, ih]
    simp [pdfPageStep]
    ring

/-- The page fold accumulates the per-page IGST contributions by summation. -/
theorem pdfFold_igst (pages : List String) (t : Totals) :
    (pages.foldl pdfPageStep t).igst_amount =
      t.igst_amount + (pages.map (pageFieldNum "igst")).sum := by
  induction pages generalizing t with
  | nil => simp
  | cons p ps ih =>
    rw [List.foldl_cons, ih]
    simp [pdfPageStep]
    ring

/-- The page fold accumulates the per-page cess contributions by summation. -/
theorem pdfFold_cess (pages : List String) (t : Totals) :
    (pages.foldl pdfPageStep t).total_cess =
      t.total_cess + (pages.map (pageFieldNum "cess")).sum := by
  induction pages generalizing t with
  | nil => simp
  | cons p ps ih =>
    rw [List.foldl_cons, ih]
    simp [pdfPageStep]
    ring

/-- The page loop never touches the exempted/non-GST field. -/
theorem pdfFold_exempted (pages : List String) (t : Totals) :
    (pages.foldl pdfPageStep t).exempted_non_gst = t.exempted_non_gst := by
  induction pages generalizing t with
  | nil => rfl
  | cons p ps ih => rw [List.foldl_cons, ih]; rfl

/-- The page loop never touches the advances-adjusted field. -/
theorem pdfFold_advances (pages : List String) (t : Totals) :
    (pages.foldl pdfPageStep t).advances_adjusted = t.advances_adjusted := by
  induction pages generalizing t with
  | nil => rfl
  | cons p ps ih => rw [List.foldl_cons, ih]; rfl


/-! ### Claim theorems -/

/-- C6: the number normalizer maps `"₹3,58,42,919.18"` to `35842919.18`
(currency symbol and Indian grouping removed), the empty string to `0.0`,
and `None` to `0.0`. -/
theorem safe_number_examples :
    safe_number (.str "₹3,58,42,919.18") = 35842919.18 ∧
    safe_number (.str "") = 0 ∧
    safe_number PyValue.none = 0 := by
  refine ⟨by with_unfolding_all rfl, by with_unfolding_all rfl, by with_unfolding_all rfl⟩

/-- C7: the number normalizer is total — the `try` body's failure is always
collapsed to `0.0` — and any string that does not parse as a decimal number
after stripping the currency symbol and separators yields `0.0`. -/
theorem safe_number_never_raises :
    (∀ v : PyValue, (safe_number_core v).isOk = false → safe_number v = 0) ∧
    (∀ s : String, pyFloatParse (stripCur s) = Option.none →
      safe_number (.str s) = 0) := by
  constructor
  · intro v h
    cases hc : safe_number_core v with
    | ok q => rw [hc] at h; simp [Except.isOk, Except.toBool] at h
    | error e => simp [safe_number, hc]
  · intro s h
    simp [safe_number, safe_number_core, h]

/-- Witness for C7 at the unparseable inputs `"abc"` and `"₹₹"`. -/
theorem safe_number_never_raises_witness :
    ((safe_number_core (.str "abc")).isOk = false ∧ safe_number (.str "abc") = 0) ∧
    (pyFloatParse (stripCur "₹₹") = Option.none ∧ safe_number (.str "₹₹") = 0) :=
  ⟨⟨by with_unfolding_all rfl,
    safe_number_never_raises.1 (.str "abc") (by with_unfolding_all rfl)⟩,
   ⟨by with_unfolding_all rfl,
    safe_number_never_raises.2 "₹₹" (by with_unfolding_all rfl)⟩⟩

/-- C2: for every `exact`-policy rule and every pair of records, the table
loop computes `discrepancy = round(|spreadsheetValue - documentValue|, 2)`
and classifies the row `Matched` exactly when the discrepancy is `0`, else
`Difference`. -/
theorem exact_rule_discrepancy_status (ex pdfT : List (String × ℚ))
    (comp : Component) (_hpol : comp.matchPolicy = "exact") :
    (buildRow ex pdfT comp).discrepancy =
      round2 |dictGet ex comp.key 0 - dictGet pdfT comp.key 0| ∧
    ((buildRow ex pdfT comp).status = "Matched" ↔
      (buildRow ex pdfT comp).discrepancy = 0) ∧
    ((buildRow ex pdfT comp).status = "Difference" ↔
      ¬ (buildRow ex pdfT comp).discrepancy = 0) := by
  have hne : ("Matched" : String) ≠ "Difference" := by decide
  unfold buildRow
  by_cases hd : round2 |dictGet ex comp.key 0 - dictGet pdfT comp.key 0| = 0
  · simp [hd]
  · simp [hd, hne]

/-- Witness for C2: the spec's example, `35842919.18` on both sides of an
`exact` rule, is `Matched` with discrepancy `0`. -/
theorem exact_rule_discrepancy_status_witness :
    compExact.matchPolicy = "exact" ∧
    (buildRow exW exW compExact).discrepancy =
      round2 |dictGet exW compExact.key 0 - dictGet exW compExact.key 0| ∧
    ((buildRow exW exW compExact).status = "Matched" ↔
      (buildRow exW exW compExact).discrepancy = 0) ∧
    (buildRow exW exW compExact).status = "Matched" ∧
    (buildRow exW exW compExact).discrepancy = 0 :=
  ⟨rfl, (exact_rule_discrepancy_status exW exW compExact rfl).1,
   (exact_rule_discrepancy_status exW exW compExact rfl).2.1,
   by with_unfolding_all rfl, by with_unfolding_all rfl⟩

/-- C3: the table loop emits exactly one row per configured rule, in
configuration order (the i-th row is built from the i-th rule). -/
theorem table_one_row_per_rule_in_order (ex pdfT : List (String × ℚ))
    (comps : List Component) :
    (buildTable ex pdfT comps).length = comps.length ∧
    ∀ i : Nat, (buildTable ex pdfT comps)[i]? = (comps[i]?).map (buildRow ex pdfT) := by
  refine ⟨by simp [buildTable], fun i => ?_⟩
  simp [buildTable, List.getElem?_map]

/-- C9: a rule whose key is absent from both records does not fail: both
values default to `0.0`, a row is still produced for the rule (it lands in
the table whenever the rule is configured), and it reads `Matched`/`0`. -/
theorem missing_key_zero_default (ex pdfT : List (String × ℚ))
    (comp : Component) (comps : List Component)
    (hex : ex.lookup comp.key = Option.none)
    (hpdf : pdfT.lookup comp.key = Option.none) :
    buildRow ex pdfT comp =
      { label := comp.label, excelValue := 0, pdfValue := 0, logic := comp.logic,
        status := "Matched", discrepancy := 0 } ∧
    (comp ∈ comps → buildRow ex pdfT comp ∈ buildTable ex pdfT comps) := by
  constructor
  · have h0 : round2 0 = 0 := by with_unfolding_all rfl
    simp [buildRow, dictGet, hex, hpdf, h0]
  · intro hm
    exact List.mem_map_of_mem _ hm

/-- Witness for C9: empty records and a rule with an unrecognised key. -/
theorem missing_key_zero_default_witness :
    (([] : List (String × ℚ)).lookup compM.key = Option.none) ∧
    buildRow [] [] compM =
      { label := compM.label, excelValue := 0, pdfValue := 0, logic := compM.logic,
        status := "Matched", discrepancy := 0 } ∧
    buildRow [] [] compM ∈ buildTable [] [] [compM] :=
  ⟨rfl,
   (missing_key_zero_default [] [] compM [compM] rfl rfl).1,
   (missing_key_zero_default [] [] compM [compM] rfl rfl).2 (List.mem_singleton.mpr rfl)⟩

/-- C5: after the page loop, the document record's B2B taxable value equals
the accumulated total taxable value, and the total invoice value is the sum
of the accumulated taxable value, CGST, SGST, IGST and cess. -/
theorem pdf_final_derivations (pages : List String) :
    (parse_gst_pdf pages).total_taxable_value =
      (pages.foldl pdfPageStep initTotals).total_taxable_value ∧
    (parse_gst_pdf pages).b2b_taxable_value =
      (pages.foldl pdfPageStep initTotals).total_taxable_value ∧
    (parse_gst_pdf pages).total_invoice_value =
      (pages.foldl pdfPageStep initTotals).total_taxable_value +
      (pages.foldl pdfPageStep initTotals).cgst_amount +
      (pages.foldl pdfPageStep initTotals).sgst_amount +
      (pages.foldl pdfPageStep initTotals).igst_amount +
      (pages.foldl pdfPageStep initTotals).total_cess := by
  unfold parse_gst_pdf
  exact ⟨rfl, rfl, rfl⟩


/-- C8: the metadata locator finds the registration identifier in the cell
immediately right of a `GSTIN` label (trimmed), the last matching label
wins, and a grid with no matching label in the 20×10 window returns all
three fields as the `"Unknown"` default. -/
theorem extract_metadata_spec :
    extract_metadata gGstin = ("Unknown", "27ABCDE1234F1Z5", "Unknown") ∧
    extract_metadata gRepeat = ("Unknown", "B", "Unknown") ∧
    ∀ df : DataFrame,
      (∀ i < min 20 df.nrows, ∀ j < min 10 df.ncols,
        strContains ((pyStr (df.ilocD i j)).toLower) "gstin" = false ∧
        strContains ((pyStr (df.ilocD i j)).toLower) "legal name" = false ∧
        strContains ((pyStr (df.ilocD i j)).toLower) "trade name" = false ∧
        strContains ((pyStr (df.ilocD i j)).toLower) "return period" = false) →
      extract_metadata df = ("Unknown", "Unknown", "Unknown") := by
  refine ⟨by with_unfolding_all rfl, by with_unfolding_all rfl, fun df h => ?_⟩
  unfold extract_metadata
  apply foldl_fixed
  intro acc i hi
  rw [List.mem_range] at hi
  apply foldl_fixed
  intro acc' j hj
  rw [List.mem_range] at hj
  obtain ⟨h1, h2, h3, h4⟩ := h i hi j hj
  obtain ⟨a, b, c⟩ := acc'
  simp [metaStep, h1, h2, h3, h4]

/-- Witness for C8's no-label clause at a concrete label-free grid. -/
theorem extract_metadata_spec_witness :
    (∀ i < min 20 gPlain.nrows, ∀ j < min 10 gPlain.ncols,
      strContains ((pyStr (gPlain.ilocD i j)).toLower) "gstin" = false ∧
      strContains ((pyStr (gPlain.ilocD i j)).toLower) "legal name" = false ∧
      strContains ((pyStr (gPlain.ilocD i j)).toLower) "trade name" = false ∧
      strContains ((pyStr (gPlain.ilocD i j)).toLower) "return period" = false) ∧
    extract_metadata gPlain = ("Unknown", "Unknown", "Unknown") :=
  ⟨by with_unfolding_all decide,
   extract_metadata_spec.2.2 gPlain (by with_unfolding_all decide)⟩

/-- C10: the spreadsheet extractor is not total over present sheets: an
`hsn` sheet with fewer than 2 rows, or a `b2b` sheet narrower than the
fixed column 11, raises `IndexError`; only an entirely absent sheet is
tolerated (all fields left at `0.0`). -/
theorem excel_parser_partial_sheets :
    parse_gstr1_excel wbHsnShort = .error "IndexError" ∧
    parse_gstr1_excel wbB2bNarrow = .error "IndexError" ∧
    parse_gstr1_excel wbNoSheets = .ok initTotals := by
  refine ⟨by with_unfolding_all rfl, by with_unfolding_all rfl, by with_unfolding_all rfl⟩

/-- C4 counterexample: on a workbook whose `hsn` sheet carries `"1.005"` in
the total-taxable-value cell, the finalized spreadsheet record holds
`201/200`, whose hundred-fold has denominator `2` — not a value rounded to
2 decimal places, refuting the rounding invariant. -/
theorem totals_not_rounded_cex :
    parse_gstr1_excel wbC4 = .ok tC4 ∧
    ¬ ((100 : ℚ) * tC4.total_taxable_value).den = 1 := by
  refine ⟨by with_unfolding_all rfl, by with_unfolding_all decide⟩

/-- C4 amended: no rounding is applied when the records are finalized.
Every spreadsheet field is exactly the normalizer's output for its fixed
cell when its named sheet is present and `0.0` when it is absent, and every
document field is exactly the unrounded per-page accumulated sum (B2B being
the taxable-value sum, total invoice value the five-component combination,
and the two unextracted fields `0.0`). -/
theorem totals_fields_unrounded :
    (∀ (wb : Workbook) (t : Totals), parse_gstr1_excel wb = .ok t →
      (∀ df, wb.findSheet "hsn" = some df →
        t.total_invoice_value = safe_number (df.ilocD 1 3) ∧
        t.total_taxable_value = safe_number (df.ilocD 1 4) ∧
        t.igst_amount = safe_number (df.ilocD 1 6) ∧
        t.cgst_amount = safe_number (df.ilocD 1 7) ∧
        t.sgst_amount = safe_number (df.ilocD 1 8) ∧
        t.total_cess = safe_number (df.ilocD 1 9)) ∧
      (wb.findSheet "hsn" = Option.none →
        t.total_invoice_value = 0 ∧ t.total_taxable_value = 0 ∧
        t.igst_amount = 0 ∧ t.cgst_amount = 0 ∧
        t.sgst_amount = 0 ∧ t.total_cess = 0) ∧
      (∀ df, wb.findSheet "b2b" = some df →
        t.b2b_taxable_value = safe_number (df.ilocD 1 11)) ∧
      (wb.findSheet "b2b" = Option.none → t.b2b_taxable_value = 0) ∧
      (∀ df, wb.findSheet "exemp" = some df →
        t.exempted_non_gst = safe_number (df.ilocD 1 3)) ∧
      (wb.findSheet "exemp" = Option.none → t.exempted_non_gst = 0) ∧
      (∀ df, wb.findSheet "atadj" = some df →
        t.advances_adjusted = safe_number (df.ilocD 1 3)) ∧
      (wb.findSheet "atadj" = Option.none → t.advances_adjusted = 0)) ∧
    (∀ pages : List String,
      (parse_gst_pdf pages).total_taxable_value =
        (pages.map (pageFieldNum "taxable value")).sum ∧
      (parse_gst_pdf pages).cgst_amount = (pages.map (pageFieldNum "cgst")).sum ∧
      (parse_gst_pdf pages).sgst_amount = (pages.map (pageFieldNum "sgst")).sum ∧
      (parse_gst_pdf pages).igst_amount = (pages.map (pageFieldNum "igst")).sum ∧
      (parse_gst_pdf pages).total_cess = (pages.map (pageFieldNum "cess")).sum ∧
      (parse_gst_pdf pages).b2b_taxable_value =
        (pages.map (pageFieldNum "taxable value")).sum ∧
      (parse_gst_pdf pages).total_invoice_value =
        (pages.map (pageFieldNum "taxable value")).sum +
        (pages.map (pageFieldNum "cgst")).sum +
        (pages.map (pageFieldNum "sgst")).sum +
        (pages.map (pageFieldNum "igst")).sum +
        (pages.map (pageFieldNum "cess")).sum ∧
      (parse_gst_pdf pages).exempted_non_gst = 0 ∧
      (parse_gst_pdf pages).advances_adjusted = 0) := by
  constructor
  · intro wb t hp
    unfold parse_gstr1_excel at hp
    cases hh : hsnBlock wb initTotals with
    | error e => simp only [hh] at hp; exact Except.noConfusion hp
    | ok t1 =>
      simp only [hh] at hp
      cases hb : b2bBlock wb t1 with
      | error e => simp only [hb] at hp; exact Except.noConfusion hp
      | ok t2 =>
        simp only [hb] at hp
        cases hx : exempBlock wb t2 with
        | error e => simp only [hx] at hp; exact Except.noConfusion hp
        | ok t3 =>
          simp only [hx] at hp
          obtain ⟨A1b2b, A1ex, A1adv, A1some, A1none⟩ := hsnBlock_spec hh
          obtain ⟨B1, B2, B3, B4, B5, B6, B7, B8, Bsome, Bnone⟩ := b2bBlock_spec hb
          obtain ⟨X1, X2, X3, X4, X5, X6, X7, X8, Xsome, Xnone⟩ := exempBlock_spec hx
          obtain ⟨D1, D2, D3, D4, D5, D6, D7, D8, Dsome, Dnone⟩ := atadjBlock_spec hp
          refine ⟨?_, ?_, ?_, ?_, ?_, ?_, ?_, ?_⟩
          · intro df hdf
            obtain ⟨e3, e4, e6, e7, e8, e9⟩ := A1some df hdf
            exact ⟨by rw [D6, X6, B6, e3], by rw [D1, X1, B1, e4],
              by rw [D4, X4, B4, e6], by rw [D2, X2, B2, e7],
              by rw [D3, X3, B3, e8], by rw [D5, X5, B5, e9]⟩
          · intro hn
            obtain ⟨f3, f4, f6, f7, f8, f9⟩ := A1none hn
            exact ⟨by simp only [D6, X6, B6, f3, initTotals],
              by simp only [D1, X1, B1, f4, initTotals],
              by simp only [D4, X4, B4, f6, initTotals],
              by simp only [D2, X2, B2, f7, initTotals],
              by simp only [D3, X3, B3, f8, initTotals],
              by simp only [D5, X5, B5, f9, initTotals]⟩
          · intro df hdf
            rw [D7, X7]
            exact Bsome df hdf
          · intro hn
            simp only [D7, X7, Bnone hn, A1b2b, initTotals]
          · intro df hdf
            rw [D8]
            exact Xsome df hdf
          · intro hn
            simp only [D8, Xnone hn, B7, A1ex, initTotals]
          · intro df hdf
            exact Dsome df hdf
          · intro hn
            simp only [Dnone hn, X8, B8, A1adv, initTotals]
  · intro pages
    have h1 := pdfFold_ttv pages initTotals
    have h2 := pdfFold_cgst pages initTotals
    have h3 := pdfFold_sgst pages initTotals
    have h4 := pdfFold_igst pages initTotals
    have h5 := pdfFold_cess pages initTotals
    have h6 := pdfFold_exempted pages initTotals
    have h7 := pdfFold_advances pages initTotals
    simp only [initTotals] at h1 h2 h3 h4 h5 h6 h7
    rw [zero_add] at h1 h2 h3 h4 h5
    refine ⟨?_, ?_, ?_, ?_, ?_, ?_, ?_, ?_, ?_⟩ <;>
      simp [parse_gst_pdf, initTotals, h1, h2, h3, h4, h5, h6, h7]

/-- Witness for C4's amended claim at the concrete workbook (hsn present,
b2b absent) and a concrete page list. -/
theorem totals_fields_unrounded_witness :
    (parse_gstr1_excel wbC4 = .ok tC4 ∧
     wbC4.findSheet "hsn" = some dfHsn ∧
     tC4.total_invoice_value = safe_number (dfHsn.ilocD 1 3) ∧
     tC4.total_taxable_value = safe_number (dfHsn.ilocD 1 4) ∧
     wbC4.findSheet "b2b" = Option.none ∧
     tC4.b2b_taxable_value = 0) ∧
    ((parse_gst_pdf [pageC1]).total_taxable_value =
       ([pageC1].map (pageFieldNum "taxable value")).sum ∧
     (parse_gst_pdf [pageC1]).exempted_non_gst = 0) := by
  have hok : parse_gstr1_excel wbC4 = .ok tC4 := by with_unfolding_all rfl
  have H := totals_fields_unrounded.1 wbC4 tC4 hok
  have P := totals_fields_unrounded.2 [pageC1]
  exact ⟨⟨hok, rfl, (H.1 dfHsn rfl).1, (H.1 dfHsn rfl).2.1, rfl, H.2.2.2.1 rfl⟩,
    ⟨P.1, P.2.2.2.2.2.2.2.1⟩⟩

/-- C1: the table loop only ever emits `Matched` or `Difference` — there is
no `Pending` status and no "unavailable" marker in the record type — and at
the failing input (a rule on `exempted_non_gst`, which the document
extractor never computes and leaves at `0.0`) the pipeline reports a
numeric `Matched`/`0` row instead of `Pending`/blank. -/
theorem engine_no_pending_status :
    (∀ (ex pdfT : List (String × ℚ)) (comp : Component),
      (buildRow ex pdfT comp).status = "Matched" ∨
      (buildRow ex pdfT comp).status = "Difference") ∧
    (parse_gst_pdf [pageC1]).exempted_non_gst = 0 ∧
    (parse_gstr1_excel wbC4).toOption.map
        (fun t => buildRow t.toDict (parse_gst_pdf [pageC1]).toDict compExempt) =
      some { label := "Exempted / Non-GST", excelValue := 0, pdfValue := 0,
             logic := "Exempt outward supplies", status := "Matched",
             discrepancy := 0 } := by
  refine ⟨fun ex pdfT comp => ?_, by with_unfolding_all rfl, by with_unfolding_all rfl⟩
  unfold buildRow
  by_cases hd : round2 |dictGet ex comp.key 0 - dictGet pdfT comp.key 0| = 0
  · left; simp [hd]
  · right; simp [hd]

end App
